import Mathlib

/-!
# Verification of the `uhd` sample-streaming engine

A shallow embedding of the receive/transmit streamer core of the `uhd` crate
(`src/uhd/src/receive_streamer.rs`, `src/uhd/src/transmit_streamer.rs`,
`src/uhd/src/transmit_metadata.rs`), together with theorems settling the
specification claims about it.

Modelling conventions:
* Raw pointers are natural numbers; `0` is the null pointer (`ptr::null_mut()`).
  A Rust slice `&mut [I]` is modelled by its start address and length only
  (`Buffer`), since the streamer code never reads sample values.
* The native UHD layer (`uhd_sys`) is modelled by an environment record
  (`RxDevice` / `TxDevice`) giving the integer status code and out-of-band
  outputs each native entry point would produce.  Each wrapper operation
  additionally reports the trace of native data-transfer invocations it made,
  so that "the device is/is not invoked" is a statement about the model.
* A Rust function that can panic (via `assert_eq!`, `unwrap()`, or slice
  indexing) or return `Result` is modelled with `CallResult`: `panicked`
  (fatal, process-local assertion), `errored` (recoverable `Err`), `success`.
* `f64` timeouts are passed through uninterpreted; they are modelled as `ℚ`
  values on which no arithmetic is performed (the literal `0.1` becomes `1/10`).
-/

namespace Uhd

/-- Raw pointer model: an address, `0` = null (`ptr::null_mut()`). -/
abbrev Ptr := Nat

/-- The null pointer `ptr::null_mut()`. -/
def nullPtr : Ptr := 0

/-- Model of a caller-supplied per-channel sample buffer `&mut [I]`:
its start address (`as_mut_ptr()`) and its length (`len()`). -/
structure Buffer where
  addr : Ptr
  len : Nat
deriving DecidableEq, Repr

/-- Modelled from the spec: `error.rs` is not under `src/` (only its callers
are).  §7: a device/driver error is "surfaced as a typed, recoverable error
carrying the native status code and an associated diagnostic string". -/
structure Error where
  code : Int
  message : String
deriving DecidableEq, Repr

/-- Modelled from the spec: `error.rs`'s `check_status` is not under `src/`.
§6: "All native calls return an integer status code; the wrapper must
translate non-zero codes into a typed error".  Zero is success; any non-zero
status becomes an `Error` carrying that code (the diagnostic string from the
native layer is represented by a fixed placeholder). -/
def check_status (status : Int) : Except Error Unit :=
  if status = 0 then Except.ok () else Except.error ⟨status, "uhd native error"⟩

/-- Outcome of one wrapper call: a fatal panic (failed `assert_eq!`,
`unwrap()` on `Err`, or out-of-bounds index), a recoverable `Err`, or
success with a value. -/
inductive CallResult (α : Type) where
  | panicked (msg : String)
  | errored (e : Error)
  | success (v : α)
deriving DecidableEq, Repr

/-- `r.isPanic` holds exactly when `r` is a panic. -/
def CallResult.isPanic {α : Type} : CallResult α → Bool
  | .panicked _ => true
  | _ => false

/-- Native-layer environment for a receive streamer: the status codes and
out-of-band outputs the `uhd_sys` entry points would produce.  The channel
count is fixed for the streamer's lifetime (spec §4.1: "must be consistent
for the streamer's lifetime"). -/
structure RxDevice where
  /-- Status returned by `uhd_rx_streamer_num_channels`. -/
  num_channels_status : Int
  /-- Channel count written by `uhd_rx_streamer_num_channels`. -/
  num_channels : Nat
  /-- Status returned by `uhd_rx_streamer_issue_stream_cmd`. -/
  cmd_status : Int
  /-- Status returned by `uhd_rx_streamer_recv`. -/
  recv_status : Int
  /-- Sample count written out-of-band (`items_recvd`) by `uhd_rx_streamer_recv`. -/
  recv_samples : Nat
deriving DecidableEq, Repr

/-- Native-layer environment for a transmit streamer. -/
structure TxDevice where
  /-- Status returned by `uhd_tx_streamer_num_channels`. -/
  num_channels_status : Int
  /-- Channel count written by `uhd_tx_streamer_num_channels`. -/
  num_channels : Nat
  /-- Status returned by `uhd_tx_streamer_send`. -/
  send_status : Int
  /-- Sample count written out-of-band (`items_sent`) by `uhd_tx_streamer_send`. -/
  send_samples : Nat
deriving DecidableEq, Repr

/-- One native `uhd_rx_streamer_recv` invocation as seen by the device:
the buffer-pointer array handed over, the per-channel sample count
(`samps_per_buff`), the timeout, and the one-packet flag. -/
structure RecvCall where
  pointers : List Ptr
  samps_per_buff : Nat
  timeout : ℚ
  one_packet : Bool
deriving DecidableEq, Repr

/-- One native `uhd_tx_streamer_send` invocation as seen by the device. -/
structure SendCall where
  pointers : List Ptr
  samps_per_buff : Nat
  timeout : ℚ
deriving DecidableEq, Repr

/-- Modelled from the spec: `receive_metadata.rs` is not under `src/` (only
its callers are).  Per §3 "Receive Metadata" and §4.4, and symmetric to the
in-repo `TransmitMetadata` (`transmit_metadata.rs`), it owns a native
metadata handle plus a `samples` field filled in by the wrapper after the
call; a fresh object carries the default sample count `0`. -/
structure ReceiveMetadata where
  handle : Ptr
  samples : Nat
deriving DecidableEq, Repr

/-- `ReceiveMetadata::default()`: makes a fresh native metadata handle
(opaque here, represented by a fixed non-null address) with `samples: 0`. -/
def ReceiveMetadata.default : ReceiveMetadata :=
  { handle := 1, samples := 0 }

/-- `ReceiveMetadata::set_samples` (crate-internal setter). -/
def ReceiveMetadata.set_samples (md : ReceiveMetadata) (samples : Nat) :
    ReceiveMetadata :=
  { md with samples := samples }

/-- `ReceiveMetadata::samples()`: returns the stored sample count. -/
def ReceiveMetadata.samples' (md : ReceiveMetadata) : Nat := md.samples

/-- `TransmitMetadata` (`transmit_metadata.rs` lines 8-13): a native
`uhd_tx_metadata_handle` plus the `samples` count. -/
structure TransmitMetadata where
  handle : Ptr
  samples : Nat
deriving DecidableEq, Repr

/-- `TransmitMetadata::default()` (`transmit_metadata.rs` lines 87-93):
`uhd_tx_metadata_make` produces a fresh handle (opaque here, represented by
a fixed non-null address; the status check on `make` is assumed successful),
and `samples` starts at `0`. -/
def TransmitMetadata.default : TransmitMetadata :=
  { handle := 1, samples := 0 }

/-- `TransmitMetadata::set_samples` (`transmit_metadata.rs` lines 74-76). -/
def TransmitMetadata.set_samples (md : TransmitMetadata) (samples : Nat) :
    TransmitMetadata :=
  { md with samples := samples }

/-- `TransmitMetadata::samples()` (`transmit_metadata.rs` lines 69-71). -/
def TransmitMetadata.samples' (md : TransmitMetadata) : Nat := md.samples

/-- The fold closure of `check_equal_buffer_lengths` (`receive_streamer.rs`
lines 149-165; an identical copy exists in `transmit_streamer.rs` lines
137-153): carries `Option` of the first buffer's length; the `assert_eq!`
on a mismatch is modelled by the `Except.error` case carrying the panic
message. -/
def ceblStep (prev_size : Except String (Option Nat)) (buffer : Buffer) :
    Except String (Option Nat) :=
  match prev_size with
  | Except.error m => Except.error m
  | Except.ok none => Except.ok (some buffer.len)
  | Except.ok (some prev) =>
      if prev = buffer.len then Except.ok (some prev)
      else Except.error "Unequal buffer sizes"

/-- `check_equal_buffer_lengths` continued: the fold itself, with
`unwrap_or(0)` becoming `Option.getD 0`. -/
def check_equal_buffer_lengths (buffers : List Buffer) : Except String Nat :=
  (buffers.foldl ceblStep (Except.ok none)).map (fun o => o.getD 0)

/-- The pointer-marshalling loop (`receive_streamer.rs` lines 121-123,
`transmit_streamer.rs` lines 114-116):
`for (entry, buffer) in self.buffer_pointers.iter_mut().zip(buffers.iter_mut())
 { *entry = buffer.as_mut_ptr() }` — the zip overwrites the first
`min (bp.length) (buffers.length)` slots and leaves the rest unchanged. -/
def overwritePointers (bp : List Ptr) (buffers : List Buffer) : List Ptr :=
  ((bp.zip buffers).map fun e => e.2.addr) ++ bp.drop buffers.length

/-- `ReceiveStreamer` (`receive_streamer.rs` lines 13-27): the native
streamer handle and the cached buffer-pointer table `buffer_pointers`
(`Vec<*mut c_void>`).  The `PhantomData` fields carry no state. -/
structure ReceiveStreamer where
  handle : Ptr
  buffer_pointers : List Ptr
deriving DecidableEq, Repr

/-- `ReceiveStreamer::new()` (`receive_streamer.rs` lines 33-40): null
handle, empty pointer table. -/
def ReceiveStreamer.new : ReceiveStreamer :=
  { handle := nullPtr, buffer_pointers := [] }

/-- `ReceiveStreamer::num_channels` (`receive_streamer.rs` lines 72-82):
queries the native channel count and `.unwrap()`s the status check, so a
non-zero status is a panic, not a recoverable error. -/
def ReceiveStreamer.num_channels (dev : RxDevice) (_st : ReceiveStreamer) :
    CallResult Nat :=
  match check_status dev.num_channels_status with
  | Except.ok _ => CallResult.success dev.num_channels
  | Except.error _ => CallResult.panicked "called unwrap on an Err value"

/-- Result of one `receive` call: the streamer state after the call (the
pointer table is mutated through `&mut self`), the trace of native
`uhd_rx_streamer_recv` invocations made, and the caller-visible outcome. -/
structure RxEffect where
  state : ReceiveStreamer
  trace : List RecvCall
  result : CallResult ReceiveMetadata
deriving DecidableEq, Repr

/-- The lazy-initialization block of `receive` (`receive_streamer.rs` lines
106-110): `if self.buffer_pointers.is_empty() {
self.buffer_pointers.resize(self.num_channels(), ptr::null_mut()) }` —
yields the table the rest of the call works with; `num_channels()` may
panic (its `.unwrap()`). -/
def ReceiveStreamer.initPointers (dev : RxDevice) (st : ReceiveStreamer) :
    CallResult (List Ptr) :=
  if st.buffer_pointers.isEmpty then
    match st.num_channels dev with
    | CallResult.success n => CallResult.success (List.replicate n nullPtr)
    | CallResult.panicked m => CallResult.panicked m
    | CallResult.errored e => CallResult.errored e
  else CallResult.success st.buffer_pointers

/-- `ReceiveStreamer::receive` (`receive_streamer.rs` lines 97-139):
lazily sizes `buffer_pointers` to `num_channels()` when empty, asserts
`buffers.len() == buffer_pointers.len()`, checks equal buffer lengths,
overwrites the pointer table, invokes the native receive, and on success
merges the out-of-band sample count into the metadata. -/
def ReceiveStreamer.receive (dev : RxDevice) (st : ReceiveStreamer)
    (buffers : List Buffer) (timeout : ℚ) (one_packet : Bool) : RxEffect :=
  -- let mut metadata = ReceiveMetadata::default();
  match st.initPointers dev with
  | CallResult.panicked m => { state := st, trace := [], result := CallResult.panicked m }
  | CallResult.errored e => { state := st, trace := [], result := CallResult.errored e }
  | CallResult.success bp =>
    if buffers.length ≠ bp.length then
      -- assert_eq!(buffers.len(), self.buffer_pointers.len(), ...)
      { state := { st with buffer_pointers := bp }
        trace := []
        result := CallResult.panicked
          "Number of buffers is not equal to this streamer's number of channels" }
    else
      match check_equal_buffer_lengths buffers with
      | Except.error m =>
          { state := { st with buffer_pointers := bp }
            trace := []
            result := CallResult.panicked m }
      | Except.ok buffer_length =>
          let bp2 := overwritePointers bp buffers
          let call : RecvCall :=
            { pointers := bp2, samps_per_buff := buffer_length
              timeout := timeout, one_packet := one_packet }
          match check_status dev.recv_status with
          | Except.error e =>
              { state := { st with buffer_pointers := bp2 }
                trace := [call]
                result := CallResult.errored e }
          | Except.ok _ =>
              { state := { st with buffer_pointers := bp2 }
                trace := [call]
                result := CallResult.success
                  (ReceiveMetadata.default.set_samples dev.recv_samples) }

/-- `ReceiveStreamer::receive_simple` (`receive_streamer.rs` lines 142-144):
`self.receive(&mut [buffer], 0.1, false)`. -/
def ReceiveStreamer.receive_simple (dev : RxDevice) (st : ReceiveStreamer)
    (buffer : Buffer) : RxEffect :=
  st.receive dev [buffer] (1/10) false

/-- Spec-side description of `receive_simple` (§4.1): "fixes timeout to a
short default (0.1s) and disables single-packet mode, for a single-channel
caller" — i.e. `receive` on the one-buffer set with timeout `0.1` and
`one_packet = false`.  Written from the spec's words, to be compared with
the source-derived `ReceiveStreamer.receive_simple`. -/
def receive_simple_specSide (dev : RxDevice) (st : ReceiveStreamer)
    (buffer : Buffer) : RxEffect :=
  st.receive dev [buffer] (1/10) false

/-- Modelled from the spec: `stream.rs` is not under `src/` (only its
callers are).  §3 "Stream Command": one of start-continuous,
start-for-N-samples, or stop, optionally carrying a scheduled start time
and a same-device-time-base flag.  Its encoding is opaque to the claims
settled here; `send_command` only forwards it to the native layer. -/
inductive StreamCommandKind where
  | startContinuous
  | startFiniteCount (samples : Nat)
  | stop
deriving DecidableEq, Repr

/-- Modelled from the spec: `stream.rs` is not under `src/`.  The command
value submitted through `ReceiveStreamer::send_command`. -/
structure StreamCommand where
  kind : StreamCommandKind
  whenSeconds : Option Int
deriving DecidableEq, Repr

/-- `ReceiveStreamer::send_command` (`receive_streamer.rs` lines 66-69):
`check_status(uhd_rx_streamer_issue_stream_cmd(self.handle, &command_c))` —
the native status is translated by `check_status` and returned to the
caller as a `Result`. -/
def ReceiveStreamer.send_command (dev : RxDevice) (_st : ReceiveStreamer)
    (_command : StreamCommand) : CallResult Unit :=
  match check_status dev.cmd_status with
  | Except.ok _ => CallResult.success ()
  | Except.error e => CallResult.errored e

/-- Effect of a streamer destructor: the list of handle arguments passed to
the native free entry point, and the error (if any) the destructor
propagates to its surroundings. -/
structure DropEffect where
  freed : List Ptr
  propagated : Option Error
deriving DecidableEq, Repr

/-- `Drop for ReceiveStreamer` (`receive_streamer.rs` lines 167-171):
`let _ = unsafe { uhd_rx_streamer_free(&mut self.handle) };` — the handle is
passed to the native free unconditionally (no null check in the wrapper) and
the returned status (`free_status`) is discarded by `let _`, so no error is
ever propagated. -/
def ReceiveStreamer.dropModel (_free_status : Int) (st : ReceiveStreamer) :
    DropEffect :=
  { freed := [st.handle], propagated := none }

/-- `TransmitStreamer` (`transmit_streamer.rs` lines 14-28): the native
handle and the cached `buffer_pointers` table.  `buffer_capacity` tracks the
`Vec`'s capacity (`with_capacity` / `resize`), which bounds `set_len`. -/
structure TransmitStreamer where
  handle : Ptr
  buffer_pointers : List Ptr
  buffer_capacity : Nat
deriving DecidableEq, Repr

/-- `TransmitStreamer::new(capacity)` (`transmit_streamer.rs` lines 35-42):
null handle, empty pointer table with the given capacity. -/
def TransmitStreamer.new (capacity : Nat) : TransmitStreamer :=
  { handle := nullPtr, buffer_pointers := [], buffer_capacity := capacity }

/-- `TransmitStreamer::set_len` (`transmit_streamer.rs` lines 48-50):
`unsafe { self.buffer_pointers.set_len(cap) }` — sets the `Vec`'s length to
`cap` without writing any element.  A shrink keeps the prefix; a grow (legal
only up to the capacity) exposes uninitialized memory, modelled here as null
pointers since only the length is ever meaningful for such slots. -/
def TransmitStreamer.set_len (st : TransmitStreamer) (cap : Nat) :
    TransmitStreamer :=
  { st with
      buffer_pointers :=
        st.buffer_pointers.take cap
          ++ List.replicate (cap - st.buffer_pointers.length) nullPtr }

/-- `TransmitStreamer::num_channels` (`transmit_streamer.rs` lines 66-76):
like the receive side, `.unwrap()`s the status check — a non-zero status is
a panic, not a recoverable error. -/
def TransmitStreamer.num_channels (dev : TxDevice) (_st : TransmitStreamer) :
    CallResult Nat :=
  match check_status dev.num_channels_status with
  | Except.ok _ => CallResult.success dev.num_channels
  | Except.error _ => CallResult.panicked "called unwrap on an Err value"

/-- Result of one `send` call: the streamer state after the call, the trace
of native `uhd_tx_streamer_send` invocations, the local `TransmitMetadata`
the function built and then dropped (it is not part of the return value in
the source), and the caller-visible outcome (`Result<(), Error>`). -/
structure TxEffect where
  state : TransmitStreamer
  trace : List SendCall
  dropped_metadata : TransmitMetadata
  result : CallResult Unit
deriving DecidableEq, Repr

/-- The lazy-initialization block of `send` (`transmit_streamer.rs` lines
99-103), identical to the receive side's. -/
def TransmitStreamer.initPointers (dev : TxDevice) (st : TransmitStreamer) :
    CallResult (List Ptr) :=
  if st.buffer_pointers.isEmpty then
    match st.num_channels dev with
    | CallResult.success n => CallResult.success (List.replicate n nullPtr)
    | CallResult.panicked m => CallResult.panicked m
    | CallResult.errored e => CallResult.errored e
  else CallResult.success st.buffer_pointers

/-- `TransmitStreamer::send` (`transmit_streamer.rs` lines 91-131):
builds a local default `TransmitMetadata`, lazily sizes `buffer_pointers`
to `num_channels()` when empty, then asserts
`buffers[0].len() == self.buffer_pointers.len()` (the index `buffers[0]`
panics on an empty buffer set; note the assert compares the FIRST BUFFER'S
LENGTH, not the number of buffers, against the channel count), checks equal
buffer lengths, overwrites the pointer table (the zip covers only
`min buffers.len() buffer_pointers.len()` slots), invokes the native send,
sets the local metadata's sample count, and returns `Ok(())` — dropping the
metadata. -/
def TransmitStreamer.send (dev : TxDevice) (st : TransmitStreamer)
    (buffers : List Buffer) (timeout : ℚ) : TxEffect :=
  let metadata := TransmitMetadata.default
  match st.initPointers dev with
  | CallResult.panicked m =>
      { state := st, trace := [], dropped_metadata := metadata
        result := CallResult.panicked m }
  | CallResult.errored e =>
      { state := st, trace := [], dropped_metadata := metadata
        result := CallResult.errored e }
  | CallResult.success bp =>
    match buffers with
    | [] =>
        -- buffers[0] on an empty slice
        { state := { st with buffer_pointers := bp,
                             buffer_capacity := max st.buffer_capacity bp.length }
          trace := [], dropped_metadata := metadata
          result := CallResult.panicked
            "index out of bounds: the len is 0 but the index is 0" }
    | b0 :: _ =>
      if b0.len ≠ bp.length then
        -- assert_eq!(buffers[0].len(), self.buffer_pointers.len(), ...)
        { state := { st with buffer_pointers := bp,
                             buffer_capacity := max st.buffer_capacity bp.length }
          trace := [], dropped_metadata := metadata
          result := CallResult.panicked
            "Number of buffers is not equal to this streamer's number of channels" }
      else
        match check_equal_buffer_lengths buffers with
        | Except.error m =>
            { state := { st with buffer_pointers := bp,
                                 buffer_capacity := max st.buffer_capacity bp.length }
              trace := [], dropped_metadata := metadata
              result := CallResult.panicked m }
        | Except.ok buffer_length =>
            let bp2 := overwritePointers bp buffers
            let call : SendCall :=
              { pointers := bp2, samps_per_buff := buffer_length
                timeout := timeout }
            match check_status dev.send_status with
            | Except.error e =>
                { state := { st with buffer_pointers := bp2,
                                     buffer_capacity := max st.buffer_capacity bp2.length }
                  trace := [call]
                  dropped_metadata := metadata
                  result := CallResult.errored e }
            | Except.ok _ =>
                { state := { st with buffer_pointers := bp2,
                                     buffer_capacity := max st.buffer_capacity bp2.length }
                  trace := [call]
                  dropped_metadata := metadata.set_samples dev.send_samples
                  result := CallResult.success () }

/-- `Drop for TransmitStreamer` (`transmit_streamer.rs` lines 155-159):
same unconditional, status-discarding release as the receive side. -/
def TransmitStreamer.dropModel (_free_status : Int) (st : TransmitStreamer) :
    DropEffect :=
  { freed := [st.handle], propagated := none }

/-! ## Helper lemmas -/

lemma overwritePointers_length (bp : List Ptr) (buffers : List Buffer) :
    (overwritePointers bp buffers).length = bp.length := by
  simp [overwritePointers]
  omega

lemma overwritePointers_cons (p : Ptr) (ps : List Ptr) (b : Buffer)
    (t : List Buffer) :
    overwritePointers (p :: ps) (b :: t) = b.addr :: overwritePointers ps t := by
  simp [overwritePointers]

lemma overwritePointers_full (buffers : List Buffer) (bp : List Ptr)
    (h : bp.length = buffers.length) :
    overwritePointers bp buffers = buffers.map Buffer.addr := by
  induction buffers generalizing bp with
  | nil =>
    cases bp with
    | nil => rfl
    | cons p ps => simp at h
  | cons b t ih =>
    cases bp with
    | nil => simp at h
    | cons p ps =>
      rw [overwritePointers_cons, List.map_cons, ih ps (by simpa using h)]

lemma foldl_ceblStep_error (buffers : List Buffer) (m : String) :
    buffers.foldl ceblStep (Except.error m) = Except.error m := by
  induction buffers with
  | nil => rfl
  | cons b t ih => simpa [ceblStep] using ih

lemma foldl_ceblStep_of_all (buffers : List Buffer) (s : Nat)
    (h : ∀ b ∈ buffers, b.len = s) :
    buffers.foldl ceblStep (Except.ok (some s)) = Except.ok (some s) := by
  induction buffers with
  | nil => rfl
  | cons b t ih =>
    have hb : b.len = s := h b (List.mem_cons_self b t)
    have ht : ∀ x ∈ t, x.len = s := fun x hx => h x (List.mem_cons_of_mem b hx)
    simpa [ceblStep, hb] using ih ht

lemma foldl_ceblStep_of_ne (buffers : List Buffer) (s : Nat)
    (h : ∃ b ∈ buffers, b.len ≠ s) :
    buffers.foldl ceblStep (Except.ok (some s)) =
      Except.error "Unequal buffer sizes" := by
  induction buffers with
  | nil => simp at h
  | cons b t ih =>
    by_cases hb : b.len = s
    · obtain ⟨x, hx, hne⟩ := h
      rcases List.mem_cons.mp hx with rfl | hxt
      · exact absurd hb hne
      · simpa [ceblStep, hb] using ih ⟨x, hxt, hne⟩
    · have : ceblStep (Except.ok (some s)) b = Except.error "Unequal buffer sizes" := by
        simp [ceblStep]
        exact fun hs => absurd hs.symm hb
      rw [List.foldl_cons, this, foldl_ceblStep_error]

lemma check_equal_buffer_lengths_nil :
    check_equal_buffer_lengths [] = Except.ok 0 := rfl

lemma check_equal_buffer_lengths_cons (b : Buffer) (t : List Buffer)
    (h : ∀ x ∈ t, x.len = b.len) :
    check_equal_buffer_lengths (b :: t) = Except.ok b.len := by
  have : ceblStep (Except.ok none) b = Except.ok (some b.len) := rfl
  rw [check_equal_buffer_lengths, List.foldl_cons, this,
    foldl_ceblStep_of_all t b.len h]
  rfl

lemma check_equal_buffer_lengths_ok (buffers : List Buffer)
    (h : ∀ b1 ∈ buffers, ∀ b2 ∈ buffers, b1.len = b2.len) :
    ∃ L, check_equal_buffer_lengths buffers = Except.ok L := by
  cases buffers with
  | nil => exact ⟨0, check_equal_buffer_lengths_nil⟩
  | cons b t =>
    refine ⟨b.len, check_equal_buffer_lengths_cons b t fun x hx => ?_⟩
    exact h x (List.mem_cons_of_mem b hx) b (List.mem_cons_self b t)

lemma check_equal_buffer_lengths_const (buffers : List Buffer) (L : Nat)
    (h : ∀ b ∈ buffers, b.len = L) (hne : buffers ≠ []) :
    check_equal_buffer_lengths buffers = Except.ok L := by
  cases buffers with
  | nil => exact absurd rfl hne
  | cons b t =>
    have hb : b.len = L := h b (List.mem_cons_self b t)
    rw [check_equal_buffer_lengths_cons b t fun x hx =>
      (h x (List.mem_cons_of_mem b hx)).trans hb.symm, hb]

/-- The pointer table as it stands after the lazy-initialization block. -/
def ReceiveStreamer.tableAfterInit (dev : RxDevice) (st : ReceiveStreamer) :
    List Ptr :=
  if st.buffer_pointers.isEmpty then List.replicate dev.num_channels nullPtr
  else st.buffer_pointers

lemma ReceiveStreamer.initPointers_ok (dev : RxDevice) (st : ReceiveStreamer)
    (hch : dev.num_channels_status = 0) :
    st.initPointers dev = CallResult.success (st.tableAfterInit dev) := by
  by_cases h : st.buffer_pointers.isEmpty <;>
    simp [ReceiveStreamer.initPointers, ReceiveStreamer.num_channels,
      check_status, hch, ReceiveStreamer.tableAfterInit, h]

lemma ReceiveStreamer.receive_pass (dev : RxDevice) (st : ReceiveStreamer)
    (buffers : List Buffer) (timeout : ℚ) (one_packet : Bool) (L : Nat)
    (hch : dev.num_channels_status = 0)
    (hcnt : buffers.length = (st.tableAfterInit dev).length)
    (hlen : check_equal_buffer_lengths buffers = Except.ok L) :
    st.receive dev buffers timeout one_packet =
      { state := { st with
          buffer_pointers := overwritePointers (st.tableAfterInit dev) buffers }
        trace := [{ pointers := overwritePointers (st.tableAfterInit dev) buffers
                    samps_per_buff := L, timeout := timeout
                    one_packet := one_packet }]
        result :=
          if dev.recv_status = 0 then
            CallResult.success (ReceiveMetadata.default.set_samples dev.recv_samples)
          else CallResult.errored ⟨dev.recv_status, "uhd native error"⟩ } := by
  by_cases hr : dev.recv_status = 0 <;>
    simp [ReceiveStreamer.receive, ReceiveStreamer.initPointers_ok dev st hch,
      ← hcnt, hlen, check_status, hr]

lemma ReceiveStreamer.receive_count_mismatch (dev : RxDevice)
    (st : ReceiveStreamer) (buffers : List Buffer) (timeout : ℚ)
    (one_packet : Bool)
    (hch : dev.num_channels_status = 0)
    (hcnt : buffers.length ≠ (st.tableAfterInit dev).length) :
    st.receive dev buffers timeout one_packet =
      { state := { st with buffer_pointers := st.tableAfterInit dev }
        trace := []
        result := CallResult.panicked
          "Number of buffers is not equal to this streamer's number of channels" } := by
  simp [ReceiveStreamer.receive, ReceiveStreamer.initPointers_ok dev st hch, hcnt]

lemma ReceiveStreamer.receive_unequal_lengths (dev : RxDevice)
    (st : ReceiveStreamer) (buffers : List Buffer) (timeout : ℚ)
    (one_packet : Bool) (m : String)
    (hch : dev.num_channels_status = 0)
    (hcnt : buffers.length = (st.tableAfterInit dev).length)
    (hlen : check_equal_buffer_lengths buffers = Except.error m) :
    st.receive dev buffers timeout one_packet =
      { state := { st with buffer_pointers := st.tableAfterInit dev }
        trace := []
        result := CallResult.panicked m } := by
  simp [ReceiveStreamer.receive, ReceiveStreamer.initPointers_ok dev st hch,
    ← hcnt, hlen]

/-- The pointer table as it stands after `send`'s lazy-initialization block. -/
def TransmitStreamer.tableAfterInit (dev : TxDevice) (st : TransmitStreamer) :
    List Ptr :=
  if st.buffer_pointers.isEmpty then List.replicate dev.num_channels nullPtr
  else st.buffer_pointers

lemma TransmitStreamer.initPointers_ok_tx (dev : TxDevice) (st : TransmitStreamer)
    (hch : dev.num_channels_status = 0) :
    st.initPointers dev = CallResult.success (st.tableAfterInit dev) := by
  by_cases h : st.buffer_pointers.isEmpty <;>
    simp [TransmitStreamer.initPointers, TransmitStreamer.num_channels,
      check_status, hch, TransmitStreamer.tableAfterInit, h]

lemma TransmitStreamer.send_pass (dev : TxDevice) (st : TransmitStreamer)
    (b0 : Buffer) (rest : List Buffer) (timeout : ℚ) (L : Nat)
    (hch : dev.num_channels_status = 0)
    (hhd : b0.len = (st.tableAfterInit dev).length)
    (hlen : check_equal_buffer_lengths (b0 :: rest) = Except.ok L) :
    st.send dev (b0 :: rest) timeout =
      { state := { st with
          buffer_pointers := overwritePointers (st.tableAfterInit dev) (b0 :: rest)
          buffer_capacity := max st.buffer_capacity (st.tableAfterInit dev).length }
        trace := [{ pointers := overwritePointers (st.tableAfterInit dev) (b0 :: rest)
                    samps_per_buff := L, timeout := timeout }]
        dropped_metadata :=
          if dev.send_status = 0 then
            TransmitMetadata.default.set_samples dev.send_samples
          else TransmitMetadata.default
        result :=
          if dev.send_status = 0 then CallResult.success ()
          else CallResult.errored ⟨dev.send_status, "uhd native error"⟩ } := by
  by_cases hs : dev.send_status = 0 <;>
    simp [TransmitStreamer.send, TransmitStreamer.initPointers_ok_tx dev st hch,
      ← hhd, hlen, check_status, hs, overwritePointers_length]

lemma TransmitStreamer.send_head_mismatch (dev : TxDevice)
    (st : TransmitStreamer) (b0 : Buffer) (rest : List Buffer) (timeout : ℚ)
    (hch : dev.num_channels_status = 0)
    (hhd : b0.len ≠ (st.tableAfterInit dev).length) :
    st.send dev (b0 :: rest) timeout =
      { state := { st with
          buffer_pointers := st.tableAfterInit dev
          buffer_capacity := max st.buffer_capacity (st.tableAfterInit dev).length }
        trace := []
        dropped_metadata := TransmitMetadata.default
        result := CallResult.panicked
          "Number of buffers is not equal to this streamer's number of channels" } := by
  simp [TransmitStreamer.send, TransmitStreamer.initPointers_ok_tx dev st hch, hhd]

lemma TransmitStreamer.send_nil (dev : TxDevice) (st : TransmitStreamer)
    (timeout : ℚ) (hch : dev.num_channels_status = 0) :
    st.send dev [] timeout =
      { state := { st with
          buffer_pointers := st.tableAfterInit dev
          buffer_capacity := max st.buffer_capacity (st.tableAfterInit dev).length }
        trace := []
        dropped_metadata := TransmitMetadata.default
        result := CallResult.panicked
          "index out of bounds: the len is 0 but the index is 0" } := by
  simp [TransmitStreamer.send, TransmitStreamer.initPointers_ok_tx dev st hch]

lemma TransmitStreamer.send_unequal_lengths (dev : TxDevice)
    (st : TransmitStreamer) (b0 : Buffer) (rest : List Buffer) (timeout : ℚ)
    (m : String)
    (hch : dev.num_channels_status = 0)
    (hhd : b0.len = (st.tableAfterInit dev).length)
    (hlen : check_equal_buffer_lengths (b0 :: rest) = Except.error m) :
    st.send dev (b0 :: rest) timeout =
      { state := { st with
          buffer_pointers := st.tableAfterInit dev
          buffer_capacity := max st.buffer_capacity (st.tableAfterInit dev).length }
        trace := []
        dropped_metadata := TransmitMetadata.default
        result := CallResult.panicked m } := by
  simp [TransmitStreamer.send, TransmitStreamer.initPointers_ok_tx dev st hch,
    ← hhd, hlen]

/-- The pointer-table invariant of the receive streamer
(`receive_streamer.rs` lines 20-21): "If this is not empty, its length is
equal to the value returned by self.num_channels()." -/
def rxTableInv (dev : RxDevice) (st : ReceiveStreamer) : Prop :=
  st.buffer_pointers ≠ [] → st.buffer_pointers.length = dev.num_channels

/-- The pointer-table invariant of the transmit streamer
(`transmit_streamer.rs` lines 21-22). -/
def txTableInv (dev : TxDevice) (st : TransmitStreamer) : Prop :=
  st.buffer_pointers ≠ [] → st.buffer_pointers.length = dev.num_channels

lemma ReceiveStreamer.tableAfterInit_length (dev : RxDevice)
    (st : ReceiveStreamer) (h : rxTableInv dev st) :
    (st.tableAfterInit dev).length = dev.num_channels := by
  by_cases he : st.buffer_pointers.isEmpty
  · simp [ReceiveStreamer.tableAfterInit, he]
  · have : st.buffer_pointers ≠ [] := by
      simpa [List.isEmpty_iff] using he
    simp [ReceiveStreamer.tableAfterInit, he, h this]

lemma TransmitStreamer.tableAfterInit_length_tx (dev : TxDevice)
    (st : TransmitStreamer) (h : txTableInv dev st) :
    (st.tableAfterInit dev).length = dev.num_channels := by
  by_cases he : st.buffer_pointers.isEmpty
  · simp [TransmitStreamer.tableAfterInit, he]
  · have : st.buffer_pointers ≠ [] := by
      simpa [List.isEmpty_iff] using he
    simp [TransmitStreamer.tableAfterInit, he, h this]

lemma ReceiveStreamer.receive_state_length (dev : RxDevice)
    (st : ReceiveStreamer) (buffers : List Buffer) (timeout : ℚ)
    (one_packet : Bool) (hch : dev.num_channels_status = 0) :
    ((st.receive dev buffers timeout one_packet).state).buffer_pointers.length
      = (st.tableAfterInit dev).length := by
  by_cases hcnt : buffers.length = (st.tableAfterInit dev).length
  · cases hE : check_equal_buffer_lengths buffers with
    | error m =>
        rw [st.receive_unequal_lengths dev buffers timeout one_packet m hch hcnt hE]
    | ok L =>
        rw [st.receive_pass dev buffers timeout one_packet L hch hcnt hE]
        exact overwritePointers_length _ _
  · rw [st.receive_count_mismatch dev buffers timeout one_packet hch hcnt]

lemma TransmitStreamer.send_state_length (dev : TxDevice)
    (st : TransmitStreamer) (buffers : List Buffer) (timeout : ℚ)
    (hch : dev.num_channels_status = 0) :
    ((st.send dev buffers timeout).state).buffer_pointers.length
      = (st.tableAfterInit dev).length := by
  cases buffers with
  | nil => rw [st.send_nil dev timeout hch]
  | cons b0 rest =>
    by_cases hhd : b0.len = (st.tableAfterInit dev).length
    · cases hE : check_equal_buffer_lengths (b0 :: rest) with
      | error m =>
          rw [st.send_unequal_lengths dev b0 rest timeout m hch hhd hE]
      | ok L =>
          rw [st.send_pass dev b0 rest timeout L hch hhd hE]
          exact overwritePointers_length _ _
    · rw [st.send_head_mismatch dev b0 rest timeout hch hhd]

lemma ReceiveStreamer.receive_preserves_inv (dev : RxDevice)
    (st : ReceiveStreamer) (buffers : List Buffer) (timeout : ℚ)
    (one_packet : Bool) (hch : dev.num_channels_status = 0)
    (h : rxTableInv dev st) :
    rxTableInv dev (st.receive dev buffers timeout one_packet).state := by
  intro _
  rw [st.receive_state_length dev buffers timeout one_packet hch,
    st.tableAfterInit_length dev h]

lemma TransmitStreamer.send_preserves_inv (dev : TxDevice)
    (st : TransmitStreamer) (buffers : List Buffer) (timeout : ℚ)
    (hch : dev.num_channels_status = 0) (h : txTableInv dev st) :
    txTableInv dev (st.send dev buffers timeout).state := by
  intro _
  rw [st.send_state_length dev buffers timeout hch,
    st.tableAfterInit_length_tx dev h]

lemma check_equal_buffer_lengths_err (buffers : List Buffer) (b1 b2 : Buffer)
    (h1 : b1 ∈ buffers) (h2 : b2 ∈ buffers) (hne : b1.len ≠ b2.len) :
    check_equal_buffer_lengths buffers = Except.error "Unequal buffer sizes" := by
  cases buffers with
  | nil => simp at h1
  | cons b t =>
    have step : ceblStep (Except.ok none) b = Except.ok (some b.len) := rfl
    have key : ∃ x ∈ t, x.len ≠ b.len := by
      by_cases hb1 : b1.len = b.len
      · have hb2 : b2.len ≠ b.len := fun hb2 => hne (hb1.trans hb2.symm)
        rcases List.mem_cons.mp h2 with rfl | h2t
        · exact absurd rfl hb2
        · exact ⟨b2, h2t, hb2⟩
      · rcases List.mem_cons.mp h1 with rfl | h1t
        · exact absurd rfl hb1
        · exact ⟨b1, h1t, hb1⟩

    rw [check_equal_buffer_lengths, List.foldl_cons, step,
      foldl_ceblStep_of_ne t b.len key]
    rfl

/-! ## Claim theorems -/

/-- C1: the claim says a `TransmitStreamer::send` call whose buffer count
differs from the channel count fails fast with a precondition assertion
before the native send is invoked.  The code instead asserts
`buffers[0].len() == buffer_pointers.len()` — the first buffer's LENGTH,
not the buffer COUNT.  On a 2-channel streamer, supplying exactly one
buffer of length 2 passes the assertion, and the native send IS invoked
(with the untouched null pointer still in the second slot). -/
theorem send_buffer_count_not_enforced :
    let dev : TxDevice := { num_channels_status := 0, num_channels := 2,
                            send_status := 0, send_samples := 2 }
    let eff := (TransmitStreamer.new 0).send dev [{ addr := 100, len := 2 }] 1
    [Buffer.mk 100 2].length = 1 ∧ dev.num_channels = 2
    ∧ eff.result = CallResult.success ()
    ∧ eff.trace = [{ pointers := [100, nullPtr], samps_per_buff := 2,
                     timeout := 1 }] := by
  decide

/-- C2: the claim says a successful `TransmitStreamer::send` produces to
the caller a `TransmitMetadata` whose `samples()` is the accepted count.
The code builds and fills exactly that metadata but returns `Ok(())`,
dropping it: the caller receives no metadata at all (the result type is
`Result<(), Error>`), contradicting the function's own doc comment. -/
theorem send_discards_transmit_metadata :
    let dev : TxDevice := { num_channels_status := 0, num_channels := 2,
                            send_status := 0, send_samples := 1 }
    let eff := (TransmitStreamer.new 0).send dev
      [{ addr := 100, len := 2 }, { addr := 200, len := 2 }] 1
    eff.result = CallResult.success ()
    ∧ eff.dropped_metadata.samples' = dev.send_samples := by
  decide

/-- C5 counterexample: the claim says every wrapper operation touching the
native layer (num_channels included) surfaces a non-zero status as a typed,
RECOVERABLE error value.  `num_channels` instead `.unwrap()`s the status
check: a non-zero status (here 3) is a panic, not an `errored` value. -/
theorem num_channels_nonzero_status_is_panic :
    ReceiveStreamer.new.num_channels
        { num_channels_status := 3, num_channels := 0, cmd_status := 0,
          recv_status := 0, recv_samples := 0 }
      = CallResult.panicked "called unwrap on an Err value"
    ∧ (TransmitStreamer.new 0).num_channels
        { num_channels_status := 3, num_channels := 0, send_status := 0,
          send_samples := 0 }
      = CallResult.panicked "called unwrap on an Err value" := by
  decide

/-- C6 counterexample: the claim says the cached buffer-pointer table, once
non-empty, always has length equal to the channel count and is never
resized after its one lazy sizing.  `TransmitStreamer::set_len` resizes it
to an arbitrary value: on a 2-channel device, `set_len 3` leaves a
non-empty table of length 3. -/
theorem set_len_breaks_table_invariant :
    let dev : TxDevice := { num_channels_status := 0, num_channels := 2,
                            send_status := 0, send_samples := 0 }
    let st := (TransmitStreamer.new 5).set_len 3
    st.buffer_pointers ≠ [] ∧ st.buffer_pointers.length ≠ dev.num_channels := by
  decide

/-- C8 counterexample: the claim says the destructor is safe on a
never-initialized handle BY GUARDING the release with a null/sentinel check.
There is no guard: dropping a freshly `new`ed streamer (null handle) passes
the null handle to the native free instead of skipping the call. -/
theorem drop_releases_null_handle_unguarded :
    (ReceiveStreamer.new.dropModel 7).freed = [nullPtr]
    ∧ (ReceiveStreamer.new.dropModel 7).freed ≠ []
    ∧ ((TransmitStreamer.new 0).dropModel 7).freed = [nullPtr]
    ∧ ((TransmitStreamer.new 0).dropModel 7).freed ≠ [] := by
  decide

/-- C8 amended: when a streamer is destroyed its drop body performs exactly
one native release, passing the current handle (unconditionally — no null
guard), and discards the release's status code, never propagating a
failure. -/
theorem drop_single_release_swallows_failure (status : Int)
    (stR : ReceiveStreamer) (stT : TransmitStreamer) :
    (stR.dropModel status).freed = [stR.handle]
    ∧ (stR.dropModel status).propagated = none
    ∧ (stT.dropModel status).freed = [stT.handle]
    ∧ (stT.dropModel status).propagated = none :=
  ⟨rfl, rfl, rfl, rfl⟩

/-- C3: two consecutive transfer calls with full, equal-length buffer sets
(one buffer per channel) on a fresh streamer: after the second call every
slot of the cached pointer table holds the corresponding buffer address of
the second call — no slot retains a pointer from the first call.  Shown for
a receive streamer (two `receive` calls) and a transmit streamer (two
`send` calls; there the second call's per-buffer length must equal the
channel count for its assertion to pass). -/
theorem pointer_cache_fully_overwritten
    (devR : RxDevice) (handle : Ptr) (bufs1 bufs2 : List Buffer)
    (t1 t2 : ℚ) (op1 op2 : Bool)
    (hchR : devR.num_channels_status = 0)
    (hcnt2 : bufs2.length = devR.num_channels)
    (heq2 : ∀ b1 ∈ bufs2, ∀ b2 ∈ bufs2, b1.len = b2.len)
    (devT : TxDevice) (capacity : Nat) (bufs1T : List Buffer)
    (b0 : Buffer) (restT : List Buffer) (t3 t4 : ℚ)
    (hchT : devT.num_channels_status = 0)
    (hcntT : (b0 :: restT).length = devT.num_channels)
    (heqT : ∀ b ∈ b0 :: restT, b.len = devT.num_channels) :
    ((((ReceiveStreamer.mk handle []).receive devR bufs1 t1 op1).state.receive
        devR bufs2 t2 op2).state).buffer_pointers = bufs2.map Buffer.addr
    ∧ ((((TransmitStreamer.new capacity).send devT bufs1T t3).state.send
        devT (b0 :: restT) t4).state).buffer_pointers
      = (b0 :: restT).map Buffer.addr := by
  constructor
  · have hinv0 : rxTableInv devR (ReceiveStreamer.mk handle []) :=
      fun h => absurd rfl h
    have hinv1 : rxTableInv devR
        ((ReceiveStreamer.mk handle []).receive devR bufs1 t1 op1).state :=
      ReceiveStreamer.receive_preserves_inv devR _ bufs1 t1 op1 hchR hinv0
    have htbl := ReceiveStreamer.tableAfterInit_length devR _ hinv1
    obtain ⟨L, hL⟩ := check_equal_buffer_lengths_ok bufs2 heq2
    rw [ReceiveStreamer.receive_pass devR _ bufs2 t2 op2 L hchR
      (hcnt2.trans htbl.symm) hL]
    exact overwritePointers_full bufs2 _ (htbl.trans hcnt2.symm)
  · have hinv0 : txTableInv devT (TransmitStreamer.new capacity) :=
      fun h => absurd rfl h
    have hinv1 : txTableInv devT
        ((TransmitStreamer.new capacity).send devT bufs1T t3).state :=
      TransmitStreamer.send_preserves_inv devT _ bufs1T t3 hchT hinv0
    have htbl := TransmitStreamer.tableAfterInit_length_tx devT _ hinv1
    have hb0 : b0.len = devT.num_channels :=
      heqT b0 (List.mem_cons_self b0 restT)
    have hall : ∀ x ∈ b0 :: restT, x.len = devT.num_channels := heqT
    have hL : check_equal_buffer_lengths (b0 :: restT)
        = Except.ok devT.num_channels :=
      check_equal_buffer_lengths_const _ _ hall (by simp)
    rw [TransmitStreamer.send_pass devT _ b0 restT t4 devT.num_channels hchT
      (hb0.trans htbl.symm) hL]
    exact overwritePointers_full (b0 :: restT) _ (htbl.trans hcntT.symm)

/-- C4: a `receive` call whose buffer count differs from the channel count,
or which supplies two buffers of unequal length, panics (a fatal local
assertion, not a recoverable `Err`) before the native receive is invoked
(`trace = []`); under the precondition (count matches, all lengths equal —
positivity not even needed) neither assertion fires. -/
theorem receive_preconditions_assert (dev : RxDevice) (st : ReceiveStreamer)
    (buffers : List Buffer) (timeout : ℚ) (one_packet : Bool)
    (hch : dev.num_channels_status = 0) (hinv : rxTableInv dev st) :
    ((buffers.length ≠ dev.num_channels
        ∨ ∃ b1 ∈ buffers, ∃ b2 ∈ buffers, b1.len ≠ b2.len) →
      (st.receive dev buffers timeout one_packet).result.isPanic = true
      ∧ (st.receive dev buffers timeout one_packet).trace = [])
    ∧ (buffers.length = dev.num_channels →
      (∀ b1 ∈ buffers, ∀ b2 ∈ buffers, b1.len = b2.len) →
      (st.receive dev buffers timeout one_packet).result.isPanic = false) := by
  have htbl := st.tableAfterInit_length dev hinv
  constructor
  · intro h
    by_cases hcnt : buffers.length = dev.num_channels
    · have hpair : ∃ b1 ∈ buffers, ∃ b2 ∈ buffers, b1.len ≠ b2.len := by
        rcases h with h | h
        · exact absurd hcnt h
        · exact h
      obtain ⟨b1, h1, b2, h2, hne⟩ := hpair
      have hE := check_equal_buffer_lengths_err buffers b1 b2 h1 h2 hne
      rw [st.receive_unequal_lengths dev buffers timeout one_packet _ hch
        (hcnt.trans htbl.symm) hE]
      exact ⟨rfl, rfl⟩
    · rw [st.receive_count_mismatch dev buffers timeout one_packet hch
        (fun hc => hcnt (hc.trans htbl))]
      exact ⟨rfl, rfl⟩
  · intro hcnt hall
    obtain ⟨L, hL⟩ := check_equal_buffer_lengths_ok buffers hall
    rw [st.receive_pass dev buffers timeout one_packet L hch
      (hcnt.trans htbl.symm) hL]
    by_cases hr : dev.recv_status = 0 <;> simp [hr, CallResult.isPanic]

/-- C5 amended: a non-zero native status is never silently ignored
(release calls aside): `receive` and `send` surface it to the caller as a
typed, recoverable error carrying the status code whenever the native
transfer was invoked, and `send_command` does the same; `num_channels`
however panics on a non-zero status (`unwrap`) instead of returning a
recoverable error. -/
theorem nonzero_status_surfaced (devR : RxDevice) (stR : ReceiveStreamer)
    (bufsR : List Buffer) (tR : ℚ) (opR : Bool) (cmd : StreamCommand)
    (devT : TxDevice) (stT : TransmitStreamer) (bufsT : List Buffer) (tT : ℚ)
    (hR : devR.recv_status ≠ 0) (hT : devT.send_status ≠ 0)
    (hC : devR.cmd_status ≠ 0) (hN : devR.num_channels_status ≠ 0) :
    ((stR.receive devR bufsR tR opR).trace ≠ [] →
      (stR.receive devR bufsR tR opR).result
        = CallResult.errored ⟨devR.recv_status, "uhd native error"⟩)
    ∧ ((stT.send devT bufsT tT).trace ≠ [] →
      (stT.send devT bufsT tT).result
        = CallResult.errored ⟨devT.send_status, "uhd native error"⟩)
    ∧ stR.send_command devR cmd
        = CallResult.errored ⟨devR.cmd_status, "uhd native error"⟩
    ∧ stR.num_channels devR
        = CallResult.panicked "called unwrap on an Err value" := by
  refine ⟨?_, ?_, ?_, ?_⟩
  · intro htr
    unfold ReceiveStreamer.receive at htr ⊢
    cases hI : stR.initPointers devR with
    | panicked m => simp [hI] at htr
    | errored e => simp [hI] at htr
    | success bp =>
      simp only [hI] at htr ⊢
      by_cases hcnt : bufsR.length ≠ bp.length
      · simp [hcnt] at htr
      · cases hE : check_equal_buffer_lengths bufsR with
        | error m => simp [hcnt, hE] at htr
        | ok L => simp [hcnt, hE, check_status, hR]
  · intro htr
    unfold TransmitStreamer.send at htr ⊢
    cases hI : stT.initPointers devT with
    | panicked m => simp [hI] at htr
    | errored e => simp [hI] at htr
    | success bp =>
      simp only [hI] at htr ⊢
      cases bufsT with
      | nil => simp at htr
      | cons b0 rest =>
        by_cases hhd : b0.len ≠ bp.length
        · simp [hhd] at htr
        · cases hE : check_equal_buffer_lengths (b0 :: rest) with
          | error m => simp [hhd, hE] at htr
          | ok L => simp [hhd, hE, check_status, hT]
  · simp [ReceiveStreamer.send_command, check_status, hC]
  · simp [ReceiveStreamer.num_channels, check_status, hN]

/-- C6 amended: for both streamers the invariant "once the cached
buffer-pointer table is non-empty its length equals the channel count"
is preserved by every transfer call; the table is sized to the channel
count lazily by the first call that finds it empty, and a call that finds
it non-empty never changes its length.  (`TransmitStreamer::set_len`,
however, can resize the table arbitrarily — see the counterexample.) -/
theorem table_invariant_preserved (devR : RxDevice) (stR : ReceiveStreamer)
    (bufsR : List Buffer) (tR : ℚ) (opR : Bool)
    (devT : TxDevice) (stT : TransmitStreamer) (bufsT : List Buffer) (tT : ℚ)
    (hchR : devR.num_channels_status = 0) (hchT : devT.num_channels_status = 0)
    (hinvR : rxTableInv devR stR) (hinvT : txTableInv devT stT) :
    rxTableInv devR (stR.receive devR bufsR tR opR).state
    ∧ (stR.buffer_pointers = [] →
        ((stR.receive devR bufsR tR opR).state).buffer_pointers.length
          = devR.num_channels)
    ∧ (stR.buffer_pointers ≠ [] →
        ((stR.receive devR bufsR tR opR).state).buffer_pointers.length
          = stR.buffer_pointers.length)
    ∧ txTableInv devT (stT.send devT bufsT tT).state
    ∧ (stT.buffer_pointers = [] →
        ((stT.send devT bufsT tT).state).buffer_pointers.length
          = devT.num_channels)
    ∧ (stT.buffer_pointers ≠ [] →
        ((stT.send devT bufsT tT).state).buffer_pointers.length
          = stT.buffer_pointers.length) := by
  refine ⟨ReceiveStreamer.receive_preserves_inv devR stR bufsR tR opR hchR hinvR,
    ?_, ?_,
    TransmitStreamer.send_preserves_inv devT stT bufsT tT hchT hinvT, ?_, ?_⟩
  · intro he
    rw [stR.receive_state_length devR bufsR tR opR hchR]
    simp [ReceiveStreamer.tableAfterInit, he]
  · intro hne
    rw [stR.receive_state_length devR bufsR tR opR hchR]
    simp [ReceiveStreamer.tableAfterInit, List.isEmpty_iff, hne]
  · intro he
    rw [stT.send_state_length devT bufsT tT hchT]
    simp [TransmitStreamer.tableAfterInit, he]
  · intro hne
    rw [stT.send_state_length devT bufsT tT hchT]
    simp [TransmitStreamer.tableAfterInit, List.isEmpty_iff, hne]

/-- C7: on a successful `receive` the returned metadata's `samples()`
equals the sample count the native call reported out-of-band (the
two-phase decode is already merged for the caller), and a freshly
constructed, uncommitted metadata object carries the default count 0
(shown for both metadata types). -/
theorem metadata_samples_merged (dev : RxDevice) (st : ReceiveStreamer)
    (buffers : List Buffer) (timeout : ℚ) (one_packet : Bool)
    (md : ReceiveMetadata)
    (h : (st.receive dev buffers timeout one_packet).result
      = CallResult.success md) :
    md.samples' = dev.recv_samples
    ∧ ReceiveMetadata.default.samples' = 0
    ∧ TransmitMetadata.default.samples' = 0 := by
  refine ⟨?_, rfl, rfl⟩
  unfold ReceiveStreamer.receive at h
  cases hI : st.initPointers dev with
  | panicked m => simp [hI] at h
  | errored e => simp [hI] at h
  | success bp =>
    simp only [hI] at h
    by_cases hcnt : buffers.length ≠ bp.length
    · simp [hcnt] at h
    · cases hE : check_equal_buffer_lengths buffers with
      | error m => simp [hcnt, hE] at h
      | ok L =>
        by_cases hr : dev.recv_status = 0
        · simp [hcnt, hE, check_status, hr] at h
          rw [← h]
          rfl
        · simp [hcnt, hE, check_status, hr] at h

/-- C10: a `receive` call with one zero-length buffer per channel passes
both precondition checks (`check_equal_buffer_lengths` returns 0, also on
an empty buffer list), does not panic, and invokes the native receive with
a requested per-channel length of 0 — no positivity check exists anywhere
on the path. -/
theorem zero_length_buffers_pass (dev : RxDevice) (st : ReceiveStreamer)
    (buffers : List Buffer) (timeout : ℚ) (one_packet : Bool)
    (hch : dev.num_channels_status = 0) (hinv : rxTableInv dev st)
    (hcnt : buffers.length = dev.num_channels)
    (hz : ∀ b ∈ buffers, b.len = 0) :
    check_equal_buffer_lengths buffers = Except.ok 0
    ∧ check_equal_buffer_lengths [] = Except.ok 0
    ∧ (st.receive dev buffers timeout one_packet).result.isPanic = false
    ∧ (st.receive dev buffers timeout one_packet).trace
      = [{ pointers := overwritePointers (st.tableAfterInit dev) buffers
           samps_per_buff := 0, timeout := timeout
           one_packet := one_packet }] := by
  have hok : check_equal_buffer_lengths buffers = Except.ok 0 := by
    cases buffers with
    | nil => rfl
    | cons b t =>
        exact check_equal_buffer_lengths_const (b :: t) 0 hz (by simp)
  have htbl := st.tableAfterInit_length dev hinv
  have hrun := st.receive_pass dev buffers timeout one_packet 0 hch
    (hcnt.trans htbl.symm) hok
  refine ⟨hok, rfl, ?_, ?_⟩
  · rw [hrun]
    by_cases hr : dev.recv_status = 0 <;> simp [hr, CallResult.isPanic]
  · rw [hrun]

/-- C9: `receive_simple(buffer)` is exactly `receive(&mut [buffer], 0.1,
false)` — same result, same state change — and coincides with the
spec-side description. -/
theorem receive_simple_refines_receive (dev : RxDevice)
    (st : ReceiveStreamer) (buffer : Buffer) :
    st.receive_simple dev buffer = st.receive dev [buffer] (1/10) false
    ∧ st.receive_simple dev buffer = receive_simple_specSide dev st buffer :=
  ⟨rfl, rfl⟩

/-! ## Witnesses -/

/-- Witness for C3 on a 2-channel device: first call with buffers at
addresses 10/20 (rx) and 50/60 (tx), second call at 30/40 (rx) and
70/80 (tx); after the second call the table holds exactly the second
call's addresses. -/
theorem pointer_cache_fully_overwritten_witness :
    ((((ReceiveStreamer.mk 9 []).receive ⟨0, 2, 0, 0, 0⟩
        [⟨10, 4⟩, ⟨20, 4⟩] 1 false).state.receive ⟨0, 2, 0, 0, 0⟩
        [⟨30, 4⟩, ⟨40, 4⟩] 1 false).state).buffer_pointers
      = [Buffer.mk 30 4, Buffer.mk 40 4].map Buffer.addr
    ∧ ((((TransmitStreamer.new 2).send ⟨0, 2, 0, 0⟩
        [⟨50, 2⟩, ⟨60, 2⟩] 1).state.send ⟨0, 2, 0, 0⟩
        [⟨70, 2⟩, ⟨80, 2⟩] 1).state).buffer_pointers
      = [Buffer.mk 70 2, Buffer.mk 80 2].map Buffer.addr :=
  pointer_cache_fully_overwritten ⟨0, 2, 0, 0, 0⟩ 9
    [⟨10, 4⟩, ⟨20, 4⟩] [⟨30, 4⟩, ⟨40, 4⟩] 1 1 false false rfl (by decide)
    (by decide) ⟨0, 2, 0, 0⟩ 2 [⟨50, 2⟩, ⟨60, 2⟩] ⟨70, 2⟩ [⟨80, 2⟩] 1 1 rfl
    (by decide) (by decide)

/-- Witness for C4 on a 2-channel device with a fresh streamer and two
equal-length buffers. -/
theorem receive_preconditions_assert_witness :
    (([Buffer.mk 10 4, Buffer.mk 20 4].length
        ≠ (RxDevice.mk 0 2 0 0 0).num_channels
        ∨ ∃ b1 ∈ [Buffer.mk 10 4, Buffer.mk 20 4],
          ∃ b2 ∈ [Buffer.mk 10 4, Buffer.mk 20 4], b1.len ≠ b2.len) →
      (ReceiveStreamer.new.receive ⟨0, 2, 0, 0, 0⟩
        [⟨10, 4⟩, ⟨20, 4⟩] 1 false).result.isPanic = true
      ∧ (ReceiveStreamer.new.receive ⟨0, 2, 0, 0, 0⟩
        [⟨10, 4⟩, ⟨20, 4⟩] 1 false).trace = [])
    ∧ ([Buffer.mk 10 4, Buffer.mk 20 4].length
        = (RxDevice.mk 0 2 0 0 0).num_channels →
      (∀ b1 ∈ [Buffer.mk 10 4, Buffer.mk 20 4],
        ∀ b2 ∈ [Buffer.mk 10 4, Buffer.mk 20 4], b1.len = b2.len) →
      (ReceiveStreamer.new.receive ⟨0, 2, 0, 0, 0⟩
        [⟨10, 4⟩, ⟨20, 4⟩] 1 false).result.isPanic = false) :=
  receive_preconditions_assert ⟨0, 2, 0, 0, 0⟩ ReceiveStreamer.new
    [⟨10, 4⟩, ⟨20, 4⟩] 1 false rfl (fun h => absurd rfl h)

/-- Witness for C5 amended: a device whose every status code is non-zero. -/
theorem nonzero_status_surfaced_witness :
    ((ReceiveStreamer.new.receive ⟨5, 2, 6, 7, 0⟩ [] 1 false).trace ≠ [] →
      (ReceiveStreamer.new.receive ⟨5, 2, 6, 7, 0⟩ [] 1 false).result
        = CallResult.errored ⟨7, "uhd native error"⟩)
    ∧ (((TransmitStreamer.new 0).send ⟨5, 2, 7, 0⟩ [] 1).trace ≠ [] →
      ((TransmitStreamer.new 0).send ⟨5, 2, 7, 0⟩ [] 1).result
        = CallResult.errored ⟨7, "uhd native error"⟩)
    ∧ ReceiveStreamer.new.send_command ⟨5, 2, 6, 7, 0⟩
        ⟨StreamCommandKind.stop, none⟩
      = CallResult.errored ⟨6, "uhd native error"⟩
    ∧ ReceiveStreamer.new.num_channels ⟨5, 2, 6, 7, 0⟩
      = CallResult.panicked "called unwrap on an Err value" :=
  nonzero_status_surfaced ⟨5, 2, 6, 7, 0⟩ ReceiveStreamer.new [] 1 false
    ⟨StreamCommandKind.stop, none⟩ ⟨5, 2, 7, 0⟩ (TransmitStreamer.new 0) [] 1
    (by decide) (by decide) (by decide) (by decide)

/-- Witness for C6 amended on 1-channel devices with fresh streamers. -/
theorem table_invariant_preserved_witness :
    rxTableInv ⟨0, 1, 0, 0, 0⟩
      (ReceiveStreamer.new.receive ⟨0, 1, 0, 0, 0⟩ [⟨10, 4⟩] 1 false).state
    ∧ (ReceiveStreamer.new.buffer_pointers = [] →
        ((ReceiveStreamer.new.receive ⟨0, 1, 0, 0, 0⟩
          [⟨10, 4⟩] 1 false).state).buffer_pointers.length
          = (RxDevice.mk 0 1 0 0 0).num_channels)
    ∧ (ReceiveStreamer.new.buffer_pointers ≠ [] →
        ((ReceiveStreamer.new.receive ⟨0, 1, 0, 0, 0⟩
          [⟨10, 4⟩] 1 false).state).buffer_pointers.length
          = ReceiveStreamer.new.buffer_pointers.length)
    ∧ txTableInv ⟨0, 1, 0, 0⟩
      ((TransmitStreamer.new 1).send ⟨0, 1, 0, 0⟩ [⟨10, 1⟩] 1).state
    ∧ ((TransmitStreamer.new 1).buffer_pointers = [] →
        (((TransmitStreamer.new 1).send ⟨0, 1, 0, 0⟩
          [⟨10, 1⟩] 1).state).buffer_pointers.length
          = (TxDevice.mk 0 1 0 0).num_channels)
    ∧ ((TransmitStreamer.new 1).buffer_pointers ≠ [] →
        (((TransmitStreamer.new 1).send ⟨0, 1, 0, 0⟩
          [⟨10, 1⟩] 1).state).buffer_pointers.length
          = (TransmitStreamer.new 1).buffer_pointers.length) :=
  table_invariant_preserved ⟨0, 1, 0, 0, 0⟩ ReceiveStreamer.new [⟨10, 4⟩] 1
    false ⟨0, 1, 0, 0⟩ (TransmitStreamer.new 1) [⟨10, 1⟩] 1 rfl rfl
    (fun h => absurd rfl h) (fun h => absurd rfl h)

/-- Witness for C7: a 1-channel device that reports 5 samples out-of-band;
the returned metadata's `samples()` is 5. -/
theorem metadata_samples_merged_witness :
    (ReceiveMetadata.mk 1 5).samples' = (RxDevice.mk 0 1 0 0 5).recv_samples
    ∧ ReceiveMetadata.default.samples' = 0
    ∧ TransmitMetadata.default.samples' = 0 :=
  metadata_samples_merged ⟨0, 1, 0, 0, 5⟩ ReceiveStreamer.new [⟨100, 3⟩] 1
    false ⟨1, 5⟩ (by decide)

/-- Witness for C10: two zero-length buffers on a 2-channel device; the
native receive is invoked with a requested length of 0 and nothing panics. -/
theorem zero_length_buffers_pass_witness :
    check_equal_buffer_lengths [⟨10, 0⟩, ⟨20, 0⟩] = Except.ok 0
    ∧ check_equal_buffer_lengths [] = Except.ok 0
    ∧ (ReceiveStreamer.new.receive ⟨0, 2, 0, 0, 0⟩
        [⟨10, 0⟩, ⟨20, 0⟩] 1 false).result.isPanic = false
    ∧ (ReceiveStreamer.new.receive ⟨0, 2, 0, 0, 0⟩
        [⟨10, 0⟩, ⟨20, 0⟩] 1 false).trace
      = [{ pointers := overwritePointers
            (ReceiveStreamer.new.tableAfterInit ⟨0, 2, 0, 0, 0⟩)
            [⟨10, 0⟩, ⟨20, 0⟩]
           samps_per_buff := 0, timeout := 1, one_packet := false }] :=
  zero_length_buffers_pass ⟨0, 2, 0, 0, 0⟩ ReceiveStreamer.new
    [⟨10, 0⟩, ⟨20, 0⟩] 1 false rfl (fun h => absurd rfl h) rfl (by decide)

end Uhd
